import Mathlib

/-!
Shallow embedding of the lecture-ai front end (types.ts, App.tsx,
components/FileUpload, components/ResultsOverview, components/PreQuestView,
services/geminiService) and proofs of the spec claims about it.
JS records keyed by numbers are modelled as total functions into `Option`;
fallible operations return `Except String`; the external AI calls are
modelled as oracle parameters supplying the response the service would see.
-/

namespace LectureAI

/-- Model of `QuizQuestion` from types.ts. -/
structure QuizQuestion where
  question : String
  options : List String
  answer : String
  explanation : String
deriving DecidableEq

/-- Model of `Badge` from types.ts. -/
structure Badge where
  name : String
  description : String
deriving DecidableEq

/-- Model of `Flashcard` from types.ts. -/
structure Flashcard where
  front : String
  back : String
deriving DecidableEq

/-- Model of `ProblemSolvingChallenge` from types.ts. -/
structure ProblemSolvingChallenge where
  scenario : String
  task : String
deriving DecidableEq

/-- Model of `Concept` from types.ts. -/
structure Concept where
  title : String
  summary : String
  story_scene : String
  image_prompt : String
  quiz : List QuizQuestion
  flashcards : List Flashcard
  badge : Badge
  narration : String
  problem_solving_challenge : ProblemSolvingChallenge
deriving DecidableEq

/-- Model of `VisualTaskItem` from types.ts. -/
structure VisualTaskItem where
  term : String
  image_prompt : String
deriving DecidableEq

/-- Model of `ModuleData` from types.ts. -/
structure ModuleData where
  simple_summary : String
  visual_task : List VisualTaskItem
  concepts : List Concept
deriving DecidableEq

/-- Model of `YouTubeVideo` from types.ts. -/
structure YouTubeVideo where
  videoId : String
  title : String
  channelName : String
deriving DecidableEq

/-- One recorded quiz answer: the `{ selected, isCorrect }` record stored in
`QuizAnswers` (types.ts). -/
structure AnswerData where
  selected : String
  isCorrect : Bool
deriving DecidableEq

/-- Model of `QuizAnswers = Record<number, Record<number, {selected; isCorrect}>>`
(types.ts): a JS object keyed by numbers is modelled as a total function where
an absent key maps to `none` (and an absent concept row to the empty row). -/
def QuizAnswers : Type := Nat → Nat → Option AnswerData

/-- The empty `QuizAnswers` object `{}`. -/
def emptyAnswers : QuizAnswers := fun _ _ => none

/-- Model of a browser `File` as far as the code reads it: `file.type`
(the MIME string, field `mediaType` here) and `file.size` in bytes. -/
structure JSFile where
  mediaType : String
  size : Nat
deriving DecidableEq

/-- Model of `SelectedMedia = File | YouTubeVideo` (types.ts). -/
inductive SelectedMedia where
  | file (f : JSFile)
  | video (v : YouTubeVideo)
deriving DecidableEq

/-- Model of `View = 'idle' | 'dashboard' | 'error'` (App.tsx). -/
inductive View where
  | idle
  | dashboard
  | error
deriving DecidableEq

/-- Model of the non-null values of
`ModuleStep = null | 'generating' | 'pre-module' | 'learning' | 'results'`
(App.tsx); the `null` case is `Option.none` in `AppState.moduleStep`. -/
inductive ModuleStep where
  | generating
  | preModule
  | learning
  | results
deriving DecidableEq

/-- The whole `App` component state: one field per `useState` hook in App.tsx. -/
structure AppState where
  view : View
  error : Option String
  selectedMedia : Option SelectedMedia
  moduleStep : Option ModuleStep
  moduleData : Option ModuleData
  transcription : Option String
  currentConceptIndex : Nat
  quizAnswers : QuizAnswers

/-- The initial state: the `useState` initial values in App.tsx. -/
def initialState : AppState :=
  { view := View.idle
    error := none
    selectedMedia := none
    moduleStep := none
    moduleData := none
    transcription := none
    currentConceptIndex := 0
    quizAnswers := emptyAnswers }

/-- Model of `resetState` (App.tsx, the `resetApp` callback): resets every
piece of state to its initial value. -/
def resetState (_s : AppState) : AppState := initialState

/-- Model of `resetModule` (App.tsx): clears only the module-related state. -/
def resetModule (s : AppState) : AppState :=
  { s with
    moduleStep := none
    moduleData := none
    currentConceptIndex := 0
    quizAnswers := emptyAnswers }

/-- Model of `handleAnswerSubmit` (App.tsx): the nested-spread upsert
`{...prev, [conceptIndex]: {...prev[conceptIndex], [questionIndex]: {selected, isCorrect}}}`. -/
def handleAnswerSubmit (prev : QuizAnswers) (conceptIndex questionIndex : Nat)
    (selected : String) (isCorrect : Bool) : QuizAnswers :=
  fun c =>
    if c = conceptIndex then
      fun q =>
        if q = questionIndex then some ⟨selected, isCorrect⟩ else prev conceptIndex q
    else prev c

/-- Model of `handleNextConcept` (App.tsx): increments the index only when
module data is present and the index is below the last concept index. -/
def handleNextConcept (moduleData : Option ModuleData) (idx : Nat) : Nat :=
  match moduleData with
  | some m => if idx < m.concepts.length - 1 then idx + 1 else idx
  | none => idx

/-- Model of `handlePrevConcept` (App.tsx): decrements the index only when
it is above 0. -/
def handlePrevConcept (idx : Nat) : Nat :=
  if 0 < idx then idx - 1 else idx

/-- Model of `startGeneration` (App.tsx). The awaited outcome of
`generateModuleData(text)` is passed in as `result`; the function first sets
the generating state, then either installs the module or records the error
(a module with zero concepts is turned into a thrown error by the guard). -/
def startGeneration (s : AppState) (text : String)
    (result : Except String ModuleData) : AppState :=
  let s1 : AppState :=
    { s with
      moduleStep := some ModuleStep.generating
      error := none
      moduleData := none
      quizAnswers := emptyAnswers
      currentConceptIndex := 0
      transcription := some text }
  match result with
  | Except.ok data =>
      if data.concepts.length = 0 then
        { s1 with
          error := some "The AI failed to identify any learning concepts. Please try a different source."
          view := View.error }
      else
        { s1 with moduleData := some data, moduleStep := some ModuleStep.preModule }
  | Except.error msg =>
      { s1 with error := some msg, view := View.error }

/-- Helper: Boolean list-prefix test, used to model JS `String.startsWith`
over the character sequence of the string. -/
def isPrefixList : List Char → List Char → Bool
  | [], _ => true
  | _ :: _, [] => false
  | p :: ps, c :: cs => p = c && isPrefixList ps cs

/-- Model of JS `s.startsWith(pat)` on the character sequences. -/
def jsStartsWith (s pat : String) : Bool := isPrefixList pat.toList s.toList

/-- `MAX_FILE_SIZE_MB` from components/FileUpload. -/
def MAX_FILE_SIZE_MB : Nat := 20

/-- `MAX_FILE_SIZE_BYTES = MAX_FILE_SIZE_MB * 1024 * 1024` from components/FileUpload. -/
def MAX_FILE_SIZE_BYTES : Nat := MAX_FILE_SIZE_MB * 1024 * 1024

/-- Model of `FileUpload.handleFileChange` for a single chosen file: returns
the accepted file, or the validation error message it sets. -/
def handleFileChange (file : JSFile) : Except String JSFile :=
  if ¬(jsStartsWith file.mediaType "audio/" = true) ∧ ¬(jsStartsWith file.mediaType "video/" = true) then
    Except.error "Please upload a valid audio or video file."
  else if MAX_FILE_SIZE_BYTES < file.size then
    Except.error "File is too large. Please select a file smaller than 20 MB."
  else
    Except.ok file

/-- Model of selecting a file at the App level: `handleFileChange` followed on
success by `handleFileSelect` (App.tsx), which stores the media and moves to
the dashboard view. The second component is the FileUpload-local validation
error. -/
def selectFile (s : AppState) (file : JSFile) : AppState × Option String :=
  match handleFileChange file with
  | Except.ok f =>
      ({ s with selectedMedia := some (SelectedMedia.file f)
                view := View.dashboard
                error := none }, none)
  | Except.error msg => (s, some msg)

/-- Outcome of one call to the external image-generation endpoint, as the
`catch` in `generateImage` (services/geminiService) distinguishes them:
success with the base64 payload, an error whose message contains `'429'`
(the rate-limit signal), or any other error. -/
inductive AttemptOutcome where
  | success (imageBytes : String)
  | rateLimit
  | failure (msg : String)
deriving DecidableEq

/-- Observable trace of one `generateImage` call: its result, how many
attempts (calls to the endpoint) were made, and the backoff delays slept
in order. -/
structure ImageRun where
  result : Except String String
  attempts : Nat
  delays : List Nat

/-- The terminal message thrown after the retry loop exits. -/
def retryExhaustedMsg : String :=
  "Failed to generate image after multiple retries due to rate limiting."

/-- Model of the `while (retries > 0)` loop of `generateImage`
(services/geminiService): `oracle n` is the outcome of the (n+1)-th call to
the endpoint; `retries` and `backoff` are the loop variables; on a rate-limit
error the loop sleeps `backoff`, decrements `retries` and doubles `backoff`;
any other error is rethrown at once; when `retries` reaches 0 the terminal
error is thrown. -/
def genImageLoop (oracle : Nat → AttemptOutcome) :
    Nat → Nat → Nat → ImageRun
  | 0, _, attemptIdx => ⟨Except.error retryExhaustedMsg, attemptIdx, []⟩
  | retries + 1, backoff, attemptIdx =>
    match oracle attemptIdx with
    | AttemptOutcome.success imageBytes =>
        ⟨Except.ok ("data:image/png;base64," ++ imageBytes), attemptIdx + 1, []⟩
    | AttemptOutcome.rateLimit =>
        let rest := genImageLoop oracle retries (backoff * 2) (attemptIdx + 1)
        ⟨rest.result, rest.attempts, backoff :: rest.delays⟩
    | AttemptOutcome.failure msg =>
        ⟨Except.error ("Failed to generate image: " ++ msg), attemptIdx + 1, []⟩

/-- Model of `generateImage` (services/geminiService): the loop starts with
`retries = 3` and `backoff = 1000`. -/
def generateImage (oracle : Nat → AttemptOutcome) : ImageRun :=
  genImageLoop oracle 3 1000 0

/-- The truthiness test `answers[conceptIndex] && answers[conceptIndex][questionIndex]?.isCorrect`
from the score `useMemo` in components/ResultsOverview. -/
def lookupIsCorrect (answers : QuizAnswers) (ci qi : Nat) : Bool :=
  match answers ci qi with
  | some a => a.isCorrect
  | none => false

/-- Inner loop of the score `useMemo` (components/ResultsOverview):
`concept.quiz.forEach((_, questionIndex) => ...)`, threading the
`(correctAnswers, total)` accumulator. -/
def countQuiz (answers : QuizAnswers) (ci : Nat) :
    List QuizQuestion → Nat → Nat × Nat → Nat × Nat
  | [], _, acc => acc
  | _ :: rest, qi, acc =>
      countQuiz answers ci rest (qi + 1)
        (if lookupIsCorrect answers ci qi then acc.1 + 1 else acc.1, acc.2 + 1)

/-- Outer loop of the score `useMemo` (components/ResultsOverview):
`concepts.forEach((concept, conceptIndex) => ...)`. -/
def countConcepts (answers : QuizAnswers) :
    List Concept → Nat → Nat × Nat → Nat × Nat
  | [], _, acc => acc
  | c :: rest, ci, acc =>
      countConcepts answers rest (ci + 1) (countQuiz answers ci c.quiz 0 acc)

/-- The `(correctAnswers, total)` pair computed by the score `useMemo`,
starting both counters at 0. -/
def scoreCounts (concepts : List Concept) (answers : QuizAnswers) : Nat × Nat :=
  countConcepts answers concepts 0 (0, 0)

/-- JS `Math.round` on the nonnegative rationals that arise here:
round half up, `⌊x + 1/2⌋`. -/
def roundHalfUp (x : ℚ) : ℤ := ⌊x + 1 / 2⌋

/-- The full `{ score, totalQuestions, percentage }` value of the score
`useMemo` (components/ResultsOverview):
`total > 0 ? Math.round((correctAnswers / total) * 100) : 0`. -/
def computeScore (concepts : List Concept) (answers : QuizAnswers) :
    Nat × Nat × ℤ :=
  let counts := scoreCounts concepts answers
  (counts.1, counts.2,
    if 0 < counts.2 then roundHalfUp (((counts.1 : ℚ) / (counts.2 : ℚ)) * 100) else 0)

/-- Number of questions of concept `c` (at concept index `ci`) whose recorded
answer is marked correct. -/
def conceptCorrectCount (answers : QuizAnswers) (ci : Nat) (c : Concept) : Nat :=
  (List.range c.quiz.length).countP (fun qi => lookupIsCorrect answers ci qi)

theorem countQuiz_eq (answers : QuizAnswers) (ci : Nat) (quiz : List QuizQuestion) :
    ∀ (k : Nat) (acc : Nat × Nat),
    countQuiz answers ci quiz k acc =
      (acc.1 + (List.range quiz.length).countP (fun j => lookupIsCorrect answers ci (k + j)),
       acc.2 + quiz.length) := by
  induction quiz with
  | nil => intro k acc; simp [countQuiz]
  | cons q rest ih =>
      intro k acc
      have hfun : (fun j => lookupIsCorrect answers ci (k + Nat.succ j)) =
          (fun j => lookupIsCorrect answers ci (k + 1 + j)) := by
        funext j
        congr 1
        omega
      have step : countQuiz answers ci (q :: rest) k acc =
          countQuiz answers ci rest (k + 1)
            (if lookupIsCorrect answers ci k then acc.1 + 1 else acc.1, acc.2 + 1) := rfl
      rw [step, ih]
      simp only [List.length_cons, List.range_succ_eq_map, List.countP_cons,
        List.countP_map, Function.comp_def, hfun, Nat.add_zero]
      refine Prod.ext ?_ ?_
      · by_cases hp : lookupIsCorrect answers ci k <;>
          (simp [hp]; try omega)
      · simp
        omega

theorem countConcepts_eq (answers : QuizAnswers) (concepts : List Concept) :
    ∀ (ci : Nat) (acc : Nat × Nat),
    countConcepts answers concepts ci acc =
      (acc.1 + ((concepts.enumFrom ci).map (fun p => conceptCorrectCount answers p.1 p.2)).sum,
       acc.2 + (concepts.map (fun c => c.quiz.length)).sum) := by
  induction concepts with
  | nil => intro ci acc; simp [countConcepts]
  | cons c rest ih =>
      intro ci acc
      have step : countConcepts answers (c :: rest) ci acc =
          countConcepts answers rest (ci + 1) (countQuiz answers ci c.quiz 0 acc) := rfl
      rw [step, ih, countQuiz_eq]
      have hfun : (fun j => lookupIsCorrect answers ci (0 + j)) =
          (fun qi => lookupIsCorrect answers ci qi) := by
        funext j
        congr 1
        omega
      simp only [hfun, List.enumFrom_cons, List.map_cons, List.sum_cons, conceptCorrectCount]
      refine Prod.ext ?_ ?_
      · simp
        omega
      · simp
        omega

/-- Claim C1: the score computation yields
`correctCount` = the number of (concept, question) positions whose recorded
answer is correct, `totalQuestionCount` = the sum of quiz lengths over all
concepts, and `percentage = round(100 * correctCount / totalQuestionCount)`,
with percentage 0 when there are no questions at all. -/
theorem score_percentage_formula (concepts : List Concept) (answers : QuizAnswers) :
    (computeScore concepts answers).1 =
      ((concepts.enumFrom 0).map (fun p => conceptCorrectCount answers p.1 p.2)).sum ∧
    (computeScore concepts answers).2.1 = (concepts.map (fun c => c.quiz.length)).sum ∧
    (computeScore concepts answers).2.2 =
      (if (concepts.map (fun c => c.quiz.length)).sum = 0 then 0
       else roundHalfUp
         (100 * (((concepts.enumFrom 0).map (fun p => conceptCorrectCount answers p.1 p.2)).sum : ℚ) /
           ((concepts.map (fun c => c.quiz.length)).sum : ℚ))) := by
  have hc : scoreCounts concepts answers =
      (((concepts.enumFrom 0).map (fun p => conceptCorrectCount answers p.1 p.2)).sum,
       (concepts.map (fun c => c.quiz.length)).sum) := by
    rw [scoreCounts, countConcepts_eq]
    simp
  refine ⟨?_, ?_, ?_⟩
  · simp [computeScore, hc]
  · simp [computeScore, hc]
  · simp only [computeScore, hc]
    by_cases ht : (concepts.map (fun c => c.quiz.length)).sum = 0
    · simp [ht]
    · have hpos : 0 < (concepts.map (fun c => c.quiz.length)).sum := Nat.pos_of_ne_zero ht
      simp only [hpos, if_pos, ht, if_neg, ite_false]
      congr 1
      rw [div_mul_eq_mul_div, mul_comm]
      norm_cast
      simp [List.map_map, Function.comp_def]

/-- A concrete `Concept` used to instantiate witness theorems. -/
def sampleConcept : Concept :=
  { title := "Inertia"
    summary := "Bodies keep their state of motion."
    story_scene := "A sled glides across the frozen plain of the Concept Kingdom."
    image_prompt := "a sled gliding on ice"
    quiz := [ { question := "What resists changes in motion?"
                options := ["inertia", "color"]
                answer := "inertia"
                explanation := "Inertia resists changes in motion." } ]
    flashcards := [ { front := "Inertia", back := "Resistance to change of motion" } ]
    badge := { name := "Motion Master", description := "Mastered inertia" }
    narration := "The sled glides on."
    problem_solving_challenge := { scenario := "A sled on ice", task := "Explain why it keeps moving" } }

/-- A concrete `ModuleData` with two concepts, used in witness theorems. -/
def sampleModule : ModuleData :=
  { simple_summary := "A short lecture about motion."
    visual_task := [ { term := "inertia", image_prompt := "a sled gliding on ice" } ]
    concepts := [sampleConcept, sampleConcept] }

/-- A concrete `ModuleData` with zero concepts, used in witness theorems. -/
def emptyModule : ModuleData :=
  { simple_summary := "", visual_task := [], concepts := [] }

/-- Claim C2: for a module with `conceptCount` concepts and a current index in
`[0, conceptCount-1]`, `next()` increments the index exactly when it is below
the last index, `prev()` decrements exactly when it is above 0, both are
no-ops at their boundary, and neither moves the index out of
`[0, conceptCount-1]`. -/
theorem nav_keeps_index_in_range (m : ModuleData) (idx : Nat)
    (_hpos : 1 ≤ m.concepts.length) (hidx : idx ≤ m.concepts.length - 1) :
    (idx < m.concepts.length - 1 → handleNextConcept (some m) idx = idx + 1) ∧
    (idx = m.concepts.length - 1 → handleNextConcept (some m) idx = idx) ∧
    (0 < idx → handlePrevConcept idx = idx - 1) ∧
    (idx = 0 → handlePrevConcept idx = idx) ∧
    handleNextConcept (some m) idx ≤ m.concepts.length - 1 ∧
    handlePrevConcept idx ≤ m.concepts.length - 1 := by
  refine ⟨fun h => ?_, fun h => ?_, fun h => ?_, fun h => ?_, ?_, ?_⟩
  · simp [handleNextConcept, h]
  · simp [handleNextConcept, h]
  · simp [handlePrevConcept, h]
  · simp [handlePrevConcept, h]
  · by_cases h : idx < m.concepts.length - 1
    · simp only [handleNextConcept, if_pos h]
      exact h
    · simpa [handleNextConcept, h] using hidx
  · by_cases h : 0 < idx
    · simp only [handlePrevConcept, if_pos h]
      exact le_trans (Nat.sub_le idx 1) hidx
    · simpa [handlePrevConcept, h] using hidx

/-- Witness for C2 at a concrete two-concept module and index 1. -/
theorem nav_keeps_index_in_range_witness :
    handleNextConcept (some sampleModule) 1 = 1 ∧ handlePrevConcept 1 = 0 := by
  have h := nav_keeps_index_in_range sampleModule 1 (by decide) (by decide)
  exact ⟨h.2.1 (by decide), h.2.2.1 (by decide)⟩

/-- Claim C4: when generation yields a module with an empty concepts list,
`startGeneration` puts the app in the error view and never in pre-module;
the pre-module step is reached only when the generated module has at least
one concept. -/
theorem startGeneration_zero_concepts_errors (s : AppState) (text : String) :
    (∀ data : ModuleData, data.concepts = [] →
      (startGeneration s text (Except.ok data)).view = View.error ∧
      (startGeneration s text (Except.ok data)).moduleStep ≠ some ModuleStep.preModule) ∧
    (∀ result : Except String ModuleData,
      (startGeneration s text result).moduleStep = some ModuleStep.preModule →
      ∃ data : ModuleData, result = Except.ok data ∧ data.concepts ≠ []) := by
  constructor
  · intro data hdata
    simp [startGeneration, hdata]
  · intro result hstep
    match result with
    | Except.ok data =>
        refine ⟨data, rfl, ?_⟩
        intro hnil
        simp [startGeneration, hnil] at hstep
    | Except.error msg =>
        simp [startGeneration] at hstep

/-- Witness for C4 at the initial state and a concrete zero-concept module. -/
theorem startGeneration_zero_concepts_errors_witness :
    (startGeneration initialState "t" (Except.ok emptyModule)).view = View.error ∧
    (startGeneration initialState "t" (Except.ok emptyModule)).moduleStep ≠ some ModuleStep.preModule := by
  exact (startGeneration_zero_concepts_errors initialState "t").1 emptyModule rfl

/-- Claim C5: `resetModule` keeps the selected media and the transcription
while clearing the module data and quiz answers and zeroing the concept
index; `resetState` (resetApp) additionally clears media, transcription and
error, returning exactly to the initial idle state. -/
theorem reset_frame_conditions (s : AppState) :
    (resetModule s).selectedMedia = s.selectedMedia ∧
    (resetModule s).transcription = s.transcription ∧
    (resetModule s).view = s.view ∧
    (resetModule s).error = s.error ∧
    (resetModule s).moduleData = none ∧
    (resetModule s).moduleStep = none ∧
    (resetModule s).quizAnswers = emptyAnswers ∧
    (resetModule s).currentConceptIndex = 0 ∧
    resetState s = initialState :=
  ⟨rfl, rfl, rfl, rfl, rfl, rfl, rfl, rfl, rfl⟩

/-- Claim C7: `handleAnswerSubmit` (recordAnswer) is idempotent — upserting
the same `(conceptIdx, questionIdx, selected, isCorrect)` twice equals
upserting it once — and it leaves every other `(concept, question)` entry of
the mapping unchanged. -/
theorem recordAnswer_idempotent_and_frame (prev : QuizAnswers)
    (ci qi : Nat) (sel : String) (cor : Bool) :
    handleAnswerSubmit (handleAnswerSubmit prev ci qi sel cor) ci qi sel cor
      = handleAnswerSubmit prev ci qi sel cor ∧
    (∀ c q : Nat, c ≠ ci ∨ q ≠ qi →
      handleAnswerSubmit prev ci qi sel cor c q = prev c q) := by
  constructor
  · funext c q
    by_cases hc : c = ci <;> by_cases hq : q = qi <;>
      simp [handleAnswerSubmit, hc, hq]
  · intro c q hne
    rcases hne with hc | hq
    · simp [handleAnswerSubmit, hc]
    · by_cases hc : c = ci <;> simp [handleAnswerSubmit, hc, hq]

/-- Witness for C7: concrete double upsert at (0,0) agrees with the single
upsert at a probed key, and the entry at (1,2) is untouched. -/
theorem recordAnswer_idempotent_and_frame_witness :
    handleAnswerSubmit (handleAnswerSubmit emptyAnswers 0 0 "inertia" true) 0 0 "inertia" true
      = handleAnswerSubmit emptyAnswers 0 0 "inertia" true ∧
    handleAnswerSubmit emptyAnswers 0 0 "inertia" true 1 2 = emptyAnswers 1 2 :=
  ⟨(recordAnswer_idempotent_and_frame emptyAnswers 0 0 "inertia" true).1,
   (recordAnswer_idempotent_and_frame emptyAnswers 0 0 "inertia" true).2 1 2 (Or.inl (by decide))⟩

/-- Claim C6: an audio/video file of at most 20 MB is accepted and selected;
a file of any other MIME type gets the invalid-type message, an oversized
audio/video file gets the too-large message, and in both rejection cases the
application state is unchanged. -/
theorem selectFile_validation (s : AppState) (file : JSFile) :
    ((jsStartsWith file.mediaType "audio/" = true ∨ jsStartsWith file.mediaType "video/" = true) →
      file.size ≤ MAX_FILE_SIZE_BYTES →
      handleFileChange file = Except.ok file ∧
      selectFile s file =
        ({ s with selectedMedia := some (SelectedMedia.file file)
                  view := View.dashboard
                  error := none }, none)) ∧
    ((¬ jsStartsWith file.mediaType "audio/" = true ∧ ¬ jsStartsWith file.mediaType "video/" = true) →
      handleFileChange file = Except.error "Please upload a valid audio or video file." ∧
      (selectFile s file).1 = s) ∧
    ((jsStartsWith file.mediaType "audio/" = true ∨ jsStartsWith file.mediaType "video/" = true) →
      MAX_FILE_SIZE_BYTES < file.size →
      handleFileChange file = Except.error "File is too large. Please select a file smaller than 20 MB." ∧
      (selectFile s file).1 = s) := by
  refine ⟨fun htype hsize => ?_, fun htype => ?_, fun htype hsize => ?_⟩
  · have hnot : ¬(¬ jsStartsWith file.mediaType "audio/" = true ∧
        ¬ jsStartsWith file.mediaType "video/" = true) := by
      rcases htype with h | h
      · exact fun hc => hc.1 h
      · exact fun hc => hc.2 h
    have h1 : handleFileChange file = Except.ok file := by
      simp only [handleFileChange, if_neg hnot, if_neg (Nat.not_lt.mpr hsize)]
    exact ⟨h1, by simp [selectFile, h1]⟩
  · have h1 : handleFileChange file = Except.error "Please upload a valid audio or video file." := by
      simp only [handleFileChange, if_pos htype]
    exact ⟨h1, by simp [selectFile, h1]⟩
  · have hnot : ¬(¬ jsStartsWith file.mediaType "audio/" = true ∧
        ¬ jsStartsWith file.mediaType "video/" = true) := by
      rcases htype with h | h
      · exact fun hc => hc.1 h
      · exact fun hc => hc.2 h
    have h1 : handleFileChange file =
        Except.error "File is too large. Please select a file smaller than 20 MB." := by
      simp only [handleFileChange, if_neg hnot, if_pos hsize]
    exact ⟨h1, by simp [selectFile, h1]⟩

/-- Witness for C6: a small audio file is accepted; a text file is rejected
leaving the state unchanged. -/
theorem selectFile_validation_witness :
    handleFileChange ⟨"audio/mpeg", 1000⟩ = Except.ok ⟨"audio/mpeg", 1000⟩ ∧
    handleFileChange ⟨"text/plain", 1000⟩ = Except.error "Please upload a valid audio or video file." ∧
    (selectFile initialState ⟨"text/plain", 1000⟩).1 = initialState := by
  refine ⟨?_, ?_, ?_⟩
  · exact ((selectFile_validation initialState ⟨"audio/mpeg", 1000⟩).1
      (Or.inl (by decide)) (by decide)).1
  · exact ((selectFile_validation initialState ⟨"text/plain", 1000⟩).2.1
      ⟨by decide, by decide⟩).1
  · exact ((selectFile_validation initialState ⟨"text/plain", 1000⟩).2.1
      ⟨by decide, by decide⟩).2

/-- Claim C3 as stated is false: with every attempt rate-limited, the loop
makes only 3 calls to the endpoint, so no 4th failure ever occurs (the
terminal error follows the 3rd failure and a final 4000ms sleep). -/
theorem generateImage_no_fourth_attempt :
    ¬ (generateImage (fun _ => AttemptOutcome.rateLimit)).attempts = 4 := by
  decide

/-- Claim C3 (amended): when every call is rate-limited, `generateImage`
makes exactly 3 attempts, sleeping 1000ms, 2000ms and 4000ms after the
respective failures, and then raises the terminal retry-exhausted error with
no 4th attempt; a non-rate-limit failure on attempt k+1 (after k rate-limited
attempts) surfaces immediately as a terminal error with no further attempt
and no additional sleep. -/
theorem generateImage_retry_trace (oracle : Nat → AttemptOutcome) :
    ((∀ n, oracle n = AttemptOutcome.rateLimit) →
      generateImage oracle = ⟨Except.error retryExhaustedMsg, 3, [1000, 2000, 4000]⟩) ∧
    (∀ k msg, k < 3 → (∀ j, j < k → oracle j = AttemptOutcome.rateLimit) →
      oracle k = AttemptOutcome.failure msg →
      (generateImage oracle).result = Except.error ("Failed to generate image: " ++ msg) ∧
      (generateImage oracle).attempts = k + 1 ∧
      (generateImage oracle).delays = (List.range k).map (fun j => 1000 * 2 ^ j)) := by
  constructor
  · intro h
    simp [generateImage, genImageLoop, h]
  · intro k msg hk hprev hfail
    interval_cases k
    · simp [generateImage, genImageLoop, hfail]
    · have h0 := hprev 0 (by decide)
      simp [generateImage, genImageLoop, h0, hfail]
      rfl
    · have h0 := hprev 0 (by decide)
      have h1 := hprev 1 (by decide)
      simp [generateImage, genImageLoop, h0, h1, hfail]
      rfl

/-- Witness for C3 (amended): the all-rate-limited trace, and an immediate
failure on the very first attempt. -/
theorem generateImage_retry_trace_witness :
    generateImage (fun _ => AttemptOutcome.rateLimit)
      = ⟨Except.error retryExhaustedMsg, 3, [1000, 2000, 4000]⟩ ∧
    (generateImage (fun n => if n = 0 then AttemptOutcome.failure "boom" else AttemptOutcome.rateLimit)).attempts = 1 := by
  constructor
  · exact (generateImage_retry_trace _).1 (fun n => rfl)
  · exact ((generateImage_retry_trace _).2 0 "boom" (by decide)
      (fun j hj => absurd hj (Nat.not_lt_zero j)) rfl).2.1

/-- Model of `handleDrop` (components/PreQuestView): a dropped term is added
to `matchedPairs` exactly when it is the term of the item whose image was the
drop target and it is not already matched. -/
def handleDrop (visualTask : List VisualTaskItem) (matchedPairs : List String)
    (droppedTerm imagePrompt : String) : List String :=
  match visualTask.find? (fun it => it.image_prompt == imagePrompt) with
  | some it =>
      if droppedTerm = it.term ∧ droppedTerm ∉ matchedPairs then
        matchedPairs ++ [droppedTerm]
      else matchedPairs
  | none => matchedPairs

/-- Model of `isTaskComplete = matchedPairs.length === visualTask.length`
(components/PreQuestView line 87). -/
def isTaskComplete (visualTask : List VisualTaskItem) (matchedPairs : List String) : Bool :=
  matchedPairs.length == visualTask.length

/-- Model of the start button condition
`disabled={!isTaskComplete && !error}` (components/PreQuestView). The
component only ever stores `null` or a fixed non-empty message in `error`,
so JS truthiness of `error` is `Option.isSome`. -/
def startDisabled (visualTask : List VisualTaskItem) (matchedPairs : List String)
    (imageGenError : Option String) : Bool :=
  !(isTaskComplete visualTask matchedPairs) && imageGenError.isNone

theorem nodup_subset_length_iff {α : Type} [DecidableEq α]
    (mp terms : List α) (hmp : mp.Nodup) (hterms : terms.Nodup)
    (hsub : ∀ t ∈ mp, t ∈ terms) :
    mp.length = terms.length ↔ ∀ t ∈ terms, t ∈ mp := by
  have hfsub : mp.toFinset ⊆ terms.toFinset := by
    intro x hx
    rw [List.mem_toFinset] at hx ⊢
    exact hsub x hx
  have hcard1 : mp.toFinset.card = mp.length := List.toFinset_card_of_nodup hmp
  have hcard2 : terms.toFinset.card = terms.length := List.toFinset_card_of_nodup hterms
  constructor
  · intro hlen t ht
    have heq : mp.toFinset = terms.toFinset :=
      Finset.eq_of_subset_of_card_le hfsub (by rw [hcard1, hcard2, hlen])
    rw [← List.mem_toFinset, heq, List.mem_toFinset]
    exact ht
  · intro hall
    have heq : mp.toFinset = terms.toFinset := by
      apply Finset.Subset.antisymm hfsub
      intro x hx
      rw [List.mem_toFinset] at hx ⊢
      exact hall x hx
    rw [← hcard1, ← hcard2, heq]

/-- Claim C10: the start-module button is disabled exactly when some
visual-task term is still unmatched and no image-generation error occurred;
in particular, once an image-generation error is present the gate is waived
and the button is enabled even with zero matched pairs. (`matchedPairs` is a
duplicate-free list of visual-task terms, which is invariant under
`handleDrop` from the initial empty list.) -/
theorem start_gate_condition (vt : List VisualTaskItem) (mp : List String)
    (err : Option String) (hmp : mp.Nodup)
    (hsub : ∀ t ∈ mp, t ∈ vt.map (fun it => it.term))
    (hvt : (vt.map (fun it => it.term)).Nodup) :
    (startDisabled vt mp err = true ↔
      ((∃ it ∈ vt, it.term ∉ mp) ∧ err = none)) ∧
    (∀ msg, startDisabled vt [] (some msg) = false) := by
  constructor
  · have hlen : (vt.map (fun it => it.term)).length = vt.length := List.length_map vt _
    have hiff := nodup_subset_length_iff mp (vt.map (fun it => it.term)) hmp hvt hsub
    simp only [startDisabled, isTaskComplete, Bool.and_eq_true, Bool.not_eq_true',
      beq_eq_false_iff_ne, ne_eq, Option.isNone_iff_eq_none]
    constructor
    · rintro ⟨hne, herr⟩
      refine ⟨?_, herr⟩
      rw [hlen] at hiff
      by_contra hno
      push_neg at hno
      apply hne
      rw [hiff]
      intro t ht
      rcases List.mem_map.mp ht with ⟨it, hit, rfl⟩
      exact hno it hit
    · rintro ⟨⟨it, hit, hterm⟩, herr⟩
      refine ⟨?_, herr⟩
      rw [hlen] at hiff
      intro hlen2
      exact hterm ((hiff.mp hlen2) it.term (List.mem_map.mpr ⟨it, hit, rfl⟩))
  · intro msg
    simp [startDisabled, Option.isNone]

/-- Witness for C10 at a concrete three-item visual task: with one of three
terms matched and no error the button is disabled; after an image error it is
enabled with nothing matched. -/
theorem start_gate_condition_witness :
    (startDisabled
        [⟨"inertia", "p1"⟩, ⟨"force", "p2"⟩, ⟨"mass", "p3"⟩]
        ["inertia"] none = true ↔
      ((∃ it ∈ [VisualTaskItem.mk "inertia" "p1", ⟨"force", "p2"⟩, ⟨"mass", "p3"⟩],
          it.term ∉ ["inertia"]) ∧ (none : Option String) = none)) ∧
    startDisabled
        [⟨"inertia", "p1"⟩, ⟨"force", "p2"⟩, ⟨"mass", "p3"⟩]
        [] (some "Could not load the visual task images. You can still proceed.") = false := by
  have h := start_gate_condition
    [⟨"inertia", "p1"⟩, ⟨"force", "p2"⟩, ⟨"mass", "p3"⟩]
    ["inertia"] none (by decide) (by decide) (by decide)
  exact ⟨h.1, h.2 "Could not load the visual task images. You can still proceed."⟩

/-- Helper: JS `s.trim()` on a character sequence — drop whitespace from
both ends. -/
def jsTrim (cs : List Char) : List Char :=
  ((cs.dropWhile (fun c => c.isWhitespace)).reverse.dropWhile (fun c => c.isWhitespace)).reverse

/-- Model of a JSON value as produced by `JSON.parse`. -/
inductive Json where
  | null
  | bool (b : Bool)
  | num (n : Int)
  | str (s : String)
  | arr (elems : List Json)
  | obj (fields : List (String × Json))

/-- Model of
`responseText.replace(/^```json\n|```$/g, '').trim()`
(services/geminiService, generateModuleData): remove a leading
"```json\n" fence marker if present, then a trailing "```" if present, then
trim surrounding whitespace. -/
def stripFences (s : String) : String :=
  let cs := s.toList
  let cs1 := if isPrefixList "```json\n".toList cs then cs.drop 8 else cs
  let cs2 :=
    if isPrefixList "```".toList.reverse cs1.reverse then cs1.take (cs1.length - 3) else cs1
  (jsTrim cs2).asString

/-- Field lookup in a JSON object. -/
def getField (fields : List (String × Json)) (key : String) : Option Json :=
  (fields.find? (fun p => p.1 == key)).map (fun p => p.2)

/-- The looked-up field exists and is a JSON string. -/
def fieldIsStr (fields : List (String × Json)) (key : String) : Bool :=
  match getField fields key with
  | some (Json.str _) => true
  | _ => false

/-- The looked-up field exists and is a JSON array whose elements all satisfy `p`. -/
def fieldArrayAll (fields : List (String × Json)) (key : String) (p : Json → Bool) : Bool :=
  match getField fields key with
  | some (Json.arr elems) => elems.all p
  | _ => false

/-- The JSON value is a string. -/
def jsonIsStr : Json → Bool
  | Json.str _ => true
  | _ => false

/-- Validator for the `visual_task` items of `moduleSchema`
(services/geminiService): object with required string fields
`term` and `image_prompt`. -/
def visualItemValid : Json → Bool
  | Json.obj fields => fieldIsStr fields "term" && fieldIsStr fields "image_prompt"
  | _ => false

/-- Validator for the quiz items of `moduleSchema`: required string fields
`question`, `answer`, `explanation`; `options`, when present, an array of
strings. -/
def quizItemValid : Json → Bool
  | Json.obj fields =>
      fieldIsStr fields "question" && fieldIsStr fields "answer" &&
      fieldIsStr fields "explanation" &&
      (match getField fields "options" with
       | none => true
       | some (Json.arr elems) => elems.all jsonIsStr
       | some _ => false)
  | _ => false

/-- Validator for the flashcard items of `moduleSchema`: required string
fields `front` and `back`. -/
def flashcardItemValid : Json → Bool
  | Json.obj fields => fieldIsStr fields "front" && fieldIsStr fields "back"
  | _ => false

/-- Validator for the `badge` object of `moduleSchema`. -/
def badgeValid : Json → Bool
  | Json.obj fields => fieldIsStr fields "name" && fieldIsStr fields "description"
  | _ => false

/-- Validator for the `problem_solving_challenge` object of `moduleSchema`. -/
def challengeValid : Json → Bool
  | Json.obj fields => fieldIsStr fields "scenario" && fieldIsStr fields "task"
  | _ => false

/-- Validator for the concept objects of `moduleSchema`: all nine fields
required, with the shapes declared in services/geminiService. -/
def conceptValid : Json → Bool
  | Json.obj fields =>
      fieldIsStr fields "title" && fieldIsStr fields "summary" &&
      fieldIsStr fields "story_scene" && fieldIsStr fields "image_prompt" &&
      fieldArrayAll fields "quiz" quizItemValid &&
      fieldArrayAll fields "flashcards" flashcardItemValid &&
      (match getField fields "badge" with
       | some b => badgeValid b
       | none => false) &&
      fieldIsStr fields "narration" &&
      (match getField fields "problem_solving_challenge" with
       | some c => challengeValid c
       | none => false)
  | _ => false

/-- Validator for the top-level `moduleSchema` (services/geminiService):
object with required `simple_summary` (string), `visual_task` (array of
visual items) and `concepts` (array of concept objects). -/
def moduleSchemaValid : Json → Bool
  | Json.obj fields =>
      fieldIsStr fields "simple_summary" &&
      fieldArrayAll fields "visual_task" visualItemValid &&
      fieldArrayAll fields "concepts" conceptValid
  | _ => false

/-- The message thrown when the response text is empty
(services/geminiService, generateModuleData). -/
def emptyGenerationMsg : String :=
  "The AI failed to generate the module from the transcription. This can happen with complex or lengthy content. Please try a shorter file."

/-- The wrapper the catch block puts around every rethrown message. -/
def generateFailureWrap : String := "Failed to generate module concepts: "

/-- Model of `generateModuleData` (services/geminiService) given the external
response text: `jsonParse` is the `JSON.parse` oracle (returning the host
SyntaxError message on failure). The empty-text throw happens inside the try
block, so the catch wraps it like any other error; the parsed value is
returned with a TS cast `as ModuleData` and no runtime schema validation. -/
def generateModuleData (jsonParse : String → Except String Json)
    (responseText : String) : Except String Json :=
  if responseText = "" then
    Except.error (generateFailureWrap ++ emptyGenerationMsg)
  else
    match jsonParse (stripFences responseText) with
    | Except.ok j => Except.ok j
    | Except.error m => Except.error (generateFailureWrap ++ m)

/-- A `JSON.parse` oracle fragment consistent with the real one: parses the
text "42" to the number 42 and rejects everything else. -/
def parseNum42 : String → Except String Json :=
  fun s => if s = "42" then Except.ok (Json.num 42) else Except.error "Unexpected token"

/-- Claim C9 as stated is false: the response text "42" parses to the JSON
number 42, which fails validation against the ModuleData schema, yet
`generateModuleData` raises no error and returns it — the `as ModuleData`
cast performs no runtime schema validation. -/
theorem generateModuleData_no_schema_validation :
    generateModuleData parseNum42 "42" = Except.ok (Json.num 42) ∧
    moduleSchemaValid (Json.num 42) = false :=
  ⟨rfl, rfl⟩

/-- Claim C9 (amended): `generateModuleData` raises an error exactly when the
external response text is empty or when the text, after stripping optional
code-fence markers, is malformed JSON; otherwise it returns the parsed JSON
value as is, without validating it against the ModuleData schema. -/
theorem generateModuleData_error_conditions
    (jsonParse : String → Except String Json) (text : String) :
    (text = "" →
      generateModuleData jsonParse text = Except.error (generateFailureWrap ++ emptyGenerationMsg)) ∧
    (∀ m, text ≠ "" → jsonParse (stripFences text) = Except.error m →
      generateModuleData jsonParse text = Except.error (generateFailureWrap ++ m)) ∧
    (∀ j, text ≠ "" → jsonParse (stripFences text) = Except.ok j →
      generateModuleData jsonParse text = Except.ok j) := by
  refine ⟨fun h => ?_, fun m hne hp => ?_, fun j hne hp => ?_⟩
  · simp [generateModuleData, h]
  · simp [generateModuleData, hne, hp]
  · simp [generateModuleData, hne, hp]

/-- Witness for C9 (amended): the three behaviours at concrete inputs,
including fence stripping around the parsed text. -/
theorem generateModuleData_error_conditions_witness :
    generateModuleData parseNum42 "" = Except.error (generateFailureWrap ++ emptyGenerationMsg) ∧
    generateModuleData parseNum42 "not json" = Except.error (generateFailureWrap ++ "Unexpected token") ∧
    generateModuleData parseNum42 "```json\n42```" = Except.ok (Json.num 42) := by
  refine ⟨(generateModuleData_error_conditions parseNum42 "").1 rfl,
    (generateModuleData_error_conditions parseNum42 "not json").2.1 "Unexpected token" (by decide) ?_,
    (generateModuleData_error_conditions parseNum42 "```json\n42```").2.2 (Json.num 42) (by decide) ?_⟩
  · rfl
  · rfl

/-- Model of JS `text.indexOf(c)` for a single character, over the character
sequence: index of the first occurrence, `none` when absent (`-1` in JS). -/
def idxOfFirst (c : Char) : List Char → Option Nat
  | [] => none
  | a :: as => if a = c then some 0 else (idxOfFirst c as).map (· + 1)

/-- Model of JS `text.lastIndexOf(c)`: index of the last occurrence, computed
as the mirrored first occurrence in the reversed sequence. -/
def idxOfLast (c : Char) (cs : List Char) : Option Nat :=
  (idxOfFirst c cs.reverse).map (fun k => cs.length - 1 - k)

/-- The wrapper the `searchYouTube` catch block puts around every message. -/
def searchWrap : String := "Failed to search YouTube: "

/-- Message for an empty search response. -/
def noResultsMsg : String := "The AI did not return any search results."

/-- Message when no well-formed bracketed region is found. -/
def formatErrMsg : String :=
  "The AI returned search results in an unexpected format. Please try rephrasing your search."

/-- Message when the extracted substring fails to parse. -/
def malformedJsonMsg : String := "The AI returned malformed JSON data from search results."

/-- Model of `searchYouTube` (services/geminiService) given the external
response text: `parse` is the `JSON.parse`-plus-cast oracle for the expected
list-of-videos structure. The code takes the substring from the first `'['`
to the last `']'` and parses only that; every thrown message is wrapped by
the catch block. -/
def searchYouTube (parse : List Char → Option (List YouTubeVideo))
    (text : List Char) : Except String (List YouTubeVideo) :=
  if text = [] then Except.error (searchWrap ++ noResultsMsg)
  else
    match idxOfFirst '[' text, idxOfLast ']' text with
    | some i, some j =>
        if j < i then Except.error (searchWrap ++ formatErrMsg)
        else
          match parse ((text.drop i).take (j + 1 - i)) with
          | some vs => Except.ok vs
          | none => Except.error (searchWrap ++ malformedJsonMsg)
    | _, _ => Except.error (searchWrap ++ formatErrMsg)

theorem idxOfFirst_eq_some_iff (c : Char) (cs : List Char) (i : Nat) :
    idxOfFirst c cs = some i ↔
      (cs.get? i = some c ∧ ∀ k, k < i → cs.get? k ≠ some c) := by
  induction cs generalizing i with
  | nil => simp [idxOfFirst]
  | cons a as ih =>
      by_cases ha : a = c
      · subst ha
        simp only [idxOfFirst, if_pos rfl]
        constructor
        · intro h
          injection h with h
          subst h
          exact ⟨List.get?_cons_zero, fun k hk => absurd hk (Nat.not_lt_zero k)⟩
        · rintro ⟨hget, hmin⟩
          cases i with
          | zero => rfl
          | succ n => exact absurd List.get?_cons_zero (hmin 0 (Nat.succ_pos n))
      · simp only [idxOfFirst, if_neg ha]
        constructor
        · intro h
          rcases Option.map_eq_some'.mp h with ⟨i', hi', rfl⟩
          rcases (ih i').mp hi' with ⟨hget, hmin⟩
          refine ⟨by simpa using hget, ?_⟩
          intro k hk
          cases k with
          | zero =>
              rw [List.get?_cons_zero]
              exact fun hc => ha (Option.some.inj hc)
          | succ k' =>
              rw [List.get?_cons_succ]
              exact hmin k' (Nat.lt_of_succ_lt_succ hk)
        · rintro ⟨hget, hmin⟩
          cases i with
          | zero =>
              rw [List.get?_cons_zero] at hget
              exact absurd (Option.some.inj hget) ha
          | succ n =>
              have h1 : as.get? n = some c := by simpa using hget
              have h2 : ∀ k, k < n → as.get? k ≠ some c := by
                intro k hk
                have := hmin (k + 1) (Nat.succ_lt_succ hk)
                simpa using this
              rw [(ih n).mpr ⟨h1, h2⟩]
              rfl

theorem idxOfLast_eq_some_iff (c : Char) (cs : List Char) (j : Nat) :
    idxOfLast c cs = some j ↔
      (cs.get? j = some c ∧ ∀ k, j < k → cs.get? k ≠ some c) := by
  unfold idxOfLast
  rw [Option.map_eq_some']
  constructor
  · rintro ⟨r, hr, rfl⟩
    rcases (idxOfFirst_eq_some_iff c cs.reverse r).mp hr with ⟨hget, hmin⟩
    have hrlen : r < cs.length := by
      have := (List.get?_eq_some.mp hget).1
      rwa [List.length_reverse] at this
    have hgr : cs.get? (cs.length - 1 - r) = some c := by
      have h3 := List.getElem?_reverse (l := cs) (i := r) hrlen
      rwa [List.get?_eq_getElem?, h3, ← List.get?_eq_getElem?] at hget
    refine ⟨hgr, ?_⟩
    intro k hk
    by_cases hklen : k < cs.length
    · have h2 : cs.length - 1 - k < cs.length := by omega
      have h3 := List.getElem?_reverse (l := cs) (i := cs.length - 1 - k) h2
      have h4 : cs.length - 1 - (cs.length - 1 - k) = k := by omega
      rw [h4] at h3
      rw [List.get?_eq_getElem?, ← h3, ← List.get?_eq_getElem?]
      exact hmin (cs.length - 1 - k) (by omega)
    · rw [List.get?_len_le (Nat.le_of_not_lt hklen)]
      simp
  · rintro ⟨hget, hmax⟩
    have hjlen : j < cs.length := (List.get?_eq_some.mp hget).1
    refine ⟨cs.length - 1 - j, ?_, by omega⟩
    apply (idxOfFirst_eq_some_iff c cs.reverse (cs.length - 1 - j)).mpr
    constructor
    · have h2 : cs.length - 1 - j < cs.length := by omega
      have h3 := List.getElem?_reverse (l := cs) (i := cs.length - 1 - j) h2
      have h4 : cs.length - 1 - (cs.length - 1 - j) = j := by omega
      rw [h4] at h3
      rw [List.get?_eq_getElem?, h3, ← List.get?_eq_getElem?]
      exact hget
    · intro k hk
      have hklen : k < cs.length := by omega
      have h3 := List.getElem?_reverse (l := cs) (i := k) hklen
      rw [List.get?_eq_getElem?, h3, ← List.get?_eq_getElem?]
      apply hmax
      omega

/-- Claim C8: for a non-empty response text, a successful `searchYouTube`
result comes from parsing exactly the substring between the first `'['` and
the last `']'`; when no such well-formed region exists the call fails with
the format error, and when the region exists but fails to parse it fails
with the malformed-JSON error — never a partial result. -/
theorem searchYouTube_bracket_extraction
    (parse : List Char → Option (List YouTubeVideo)) (text : List Char)
    (hne : text ≠ []) :
    (∀ vs, searchYouTube parse text = Except.ok vs →
      ∃ i j, i ≤ j ∧
        text.get? i = some '[' ∧
        (∀ k, k < i → text.get? k ≠ some '[') ∧
        text.get? j = some ']' ∧
        (∀ k, j < k → text.get? k ≠ some ']') ∧
        parse ((text.drop i).take (j + 1 - i)) = some vs) ∧
    ((¬ ∃ i j, i ≤ j ∧ text.get? i = some '[' ∧ text.get? j = some ']') →
      searchYouTube parse text = Except.error (searchWrap ++ formatErrMsg)) ∧
    (∀ i j, i ≤ j →
      text.get? i = some '[' → (∀ k, k < i → text.get? k ≠ some '[') →
      text.get? j = some ']' → (∀ k, j < k → text.get? k ≠ some ']') →
      parse ((text.drop i).take (j + 1 - i)) = none →
      searchYouTube parse text = Except.error (searchWrap ++ malformedJsonMsg)) := by
  refine ⟨?_, ?_, ?_⟩
  · intro vs hok
    unfold searchYouTube at hok
    rw [if_neg hne] at hok
    cases hf : idxOfFirst '[' text with
    | none => rw [hf] at hok; simp at hok
    | some i =>
        cases hl : idxOfLast ']' text with
        | none => rw [hf, hl] at hok; simp at hok
        | some j =>
            rw [hf, hl] at hok
            by_cases hji : j < i
            · simp [hji] at hok
            · cases hp : parse ((text.drop i).take (j + 1 - i)) with
              | none => simp [hji, hp] at hok
              | some vs' =>
                  simp [hji, hp] at hok
                  subst hok
                  rcases (idxOfFirst_eq_some_iff '[' text i).mp hf with ⟨hgi, hmini⟩
                  rcases (idxOfLast_eq_some_iff ']' text j).mp hl with ⟨hgj, hmaxj⟩
                  exact ⟨i, j, Nat.le_of_not_lt hji, hgi, hmini, hgj, hmaxj, hp⟩
  · intro hno
    cases hf : idxOfFirst '[' text with
    | none => simp [searchYouTube, hne, hf]
    | some i =>
        cases hl : idxOfLast ']' text with
        | none => simp [searchYouTube, hne, hf, hl]
        | some j =>
            rcases (idxOfFirst_eq_some_iff '[' text i).mp hf with ⟨hgi, _⟩
            rcases (idxOfLast_eq_some_iff ']' text j).mp hl with ⟨hgj, _⟩
            by_cases hji : j < i
            · simp [searchYouTube, hne, hf, hl, hji]
            · exact absurd ⟨i, j, Nat.le_of_not_lt hji, hgi, hgj⟩ hno
  · intro i j hij hgi hmini hgj hmaxj hp
    have hf : idxOfFirst '[' text = some i :=
      (idxOfFirst_eq_some_iff '[' text i).mpr ⟨hgi, hmini⟩
    have hl : idxOfLast ']' text = some j :=
      (idxOfLast_eq_some_iff ']' text j).mpr ⟨hgj, hmaxj⟩
    have hji : ¬ j < i := Nat.not_lt.mpr hij
    simp [searchYouTube, hne, hf, hl, hji, hp]

/-- Witness for C8: on `"a[b]c"` with a parser that rejects everything the
call fails with the malformed-JSON error; on bracketless `"abc"` it fails
with the format error. -/
theorem searchYouTube_bracket_extraction_witness :
    searchYouTube (fun _ => none) ['a', '[', 'b', ']', 'c']
      = Except.error (searchWrap ++ malformedJsonMsg) ∧
    searchYouTube (fun _ => none) ['a', 'b', 'c']
      = Except.error (searchWrap ++ formatErrMsg) := by
  constructor
  · refine (searchYouTube_bracket_extraction (fun _ => none) ['a', '[', 'b', ']', 'c']
      (by decide)).2.2 1 3 (by decide) (by decide) ?_ (by decide) ?_ rfl
    · intro k hk
      interval_cases k
      decide
    · intro k hk
      rcases Nat.lt_or_ge k 5 with h5 | h5
      · interval_cases k
        decide
      · rw [List.get?_len_le (by simpa using h5)]
        simp
  · refine (searchYouTube_bracket_extraction (fun _ => none) ['a', 'b', 'c'] (by decide)).2.1 ?_
    rintro ⟨i, j, hij, hgi, hgj⟩
    have hilen : i < (['a', 'b', 'c'] : List Char).length := (List.get?_eq_some.mp hgi).1
    have : i < 3 := by simpa using hilen
    interval_cases i <;> simp_all

end LectureAI
